import Mathlib

/-!
Verification of the behavior of
src/jules-scratch/verification/verify_styles.py, a Playwright-based
end-to-end script:

    def run_verification():
        with sync_playwright() as p:
            browser = p.chromium.launch(headless=True)
            page = browser.new_page()
            base_dir = os.path.dirname(os.path.dirname(os.path.dirname(os.path.abspath(__file__))))
            index_path = os.path.join(base_dir, "index.html")
            page.goto(file URL of index_path)
            pptx_path = os.path.join(base_dir, "jules-scratch", "test.pptx")
            with page.expect_file_chooser() as fc_info:
                page.locator("#pptx-file").click()
            file_chooser = fc_info.value
            file_chooser.set_files(pptx_path)
            slide_container = page.locator("#slide-1")
            expect(slide_container).to_be_visible(timeout=10000)
            page.wait_for_timeout(1000)
            screenshot_path = os.path.join(base_dir, "jules-scratch", "verification", "verification.png")
            page.screenshot(path=screenshot_path)
            browser.close()
            print("Screenshot saved to " + screenshot_path)

The embedding represents filesystem paths as lists of components
(os.path.dirname drops the last component, os.path.join appends
components), the external world as a record of oracles saying whether
each blocking browser call succeeds, and the run as a state-passing
function that records every externally visible action in an event
trace.  Library semantics used by the model, from the Playwright
documentation: a failed locator click or chooser wait raises; set_files
raises when the supplied file does not exist on disk; page.screenshot
takes full_page=False by default (viewport only); exiting the
sync_playwright context manager stops the driver, which closes any
browser it still owns, and closing an already closed browser has no
further effect.
-/

namespace VerifyStyles

/-- A filesystem path as its list of components. -/
abbrev FsPath := List String

/-- os.path.dirname on a component list: drop the last component. -/
def dirname (p : FsPath) : FsPath := p.dropLast

/-- os.path.join on a component list: append the extra components. -/
def joinPath (base : FsPath) (parts : List String) : FsPath := base ++ parts

/-- base_dir: three dirname applications to the absolute script path. -/
def base_dir (script : FsPath) : FsPath := dirname (dirname (dirname script))

/-- index_path = os.path.join(base_dir, "index.html"). -/
def index_path (script : FsPath) : FsPath := joinPath (base_dir script) ["index.html"]

/-- pptx_path = os.path.join(base_dir, "jules-scratch", "test.pptx"). -/
def pptx_path (script : FsPath) : FsPath :=
  joinPath (base_dir script) ["jules-scratch", "test.pptx"]

/-- screenshot_path = os.path.join(base_dir, "jules-scratch", "verification", "verification.png"). -/
def screenshot_path (script : FsPath) : FsPath :=
  joinPath (base_dir script) ["jules-scratch", "verification", "verification.png"]

/-- The console message printed on success. -/
def successMessage (shot : FsPath) : String :=
  "Screenshot saved to " ++ String.intercalate "/" shot

/-- Externally visible actions of the run, in order of occurrence. -/
inductive Event where
  | launch
  | resolvePath (tag : String) (p : FsPath)
  | navigate (p : FsPath)
  | clickTrigger (selector : String)
  | setFiles (p : FsPath)
  | waitVisible (selector : String) (timeoutMs : Nat)
  | settleDelay (ms : Nat)
  | screenshot (p : FsPath) (fullPage : Bool)
  | closeBrowser
  | stopPlaywright
  | consolePrint (s : String)
  deriving DecidableEq, Repr

/-- The distinct ways the run can fail. -/
inductive RunError where
  | launchError
  | navigationError
  | uploadError
  | setFilesError
  | renderTimeoutError
  | captureError
  deriving DecidableEq, Repr

/-- Oracles for the external world: whether each blocking browser or
filesystem interaction succeeds. -/
structure Env where
  /-- chromium.launch succeeds. -/
  launchOk : Bool
  /-- page.goto on the entry point succeeds (the entry point exists and loads). -/
  navOk : Bool
  /-- the element with id pptx-file is present, its click lands and the
  file chooser event fires. -/
  triggerPresent : Bool
  /-- the time in ms after upload at which the element with id slide-1
  becomes visible; none means it never becomes visible. -/
  slideVisibleAfterMs : Option Nat
  /-- the input presentation file exists on disk. -/
  pptxExists : Bool
  /-- writing the screenshot file succeeds. -/
  captureOk : Bool
  deriving DecidableEq, Repr

/-- Whether slide-1 becomes visible within the given timeout. -/
def Env.visibleWithin (env : Env) (timeoutMs : Nat) : Bool :=
  match env.slideVisibleAfterMs with
  | some t => decide (t ≤ timeoutMs)
  | none => false

/-- Observable state of a run: the event trace, whether the browser
session is currently open, how many times it has been closed, the
screenshot files written and the console lines printed. -/
structure St where
  events : List Event
  sessionOpen : Bool
  closeCount : Nat
  shots : List FsPath
  printed : List String
  deriving DecidableEq, Repr

/-- The state before anything has happened. -/
def St.init : St := ⟨[], false, 0, [], []⟩

/-- Append one event to the trace. -/
def emit (s : St) (e : Event) : St := { s with events := s.events ++ [e] }

/-- The body of run_verification (everything inside the
sync_playwright context manager), line for line from the source.
Each blocking library call first records its event, then consults the
environment oracle; a failing call aborts with the matching error and
the state reached so far. -/
def runBody (script : FsPath) (env : Env) (s0 : St) : Except RunError Unit × St :=
  -- browser = p.chromium.launch(headless=True); page = browser.new_page()
  let s := emit s0 .launch
  if !env.launchOk then (.error .launchError, s) else
  let s := { s with sessionOpen := true }
  -- base_dir = dirname(dirname(dirname(abspath(__file__))))
  -- index_path = join(base_dir, "index.html")
  let s := emit s (.resolvePath "index" (index_path script))
  -- page.goto(file URL of index_path)
  let s := emit s (.navigate (index_path script))
  if !env.navOk then (.error .navigationError, s) else
  -- pptx_path = join(base_dir, "jules-scratch", "test.pptx")
  let s := emit s (.resolvePath "pptx" (pptx_path script))
  -- with page.expect_file_chooser(): page.locator("#pptx-file").click()
  let s := emit s (.clickTrigger "pptx-file")
  if !env.triggerPresent then (.error .uploadError, s) else
  -- file_chooser.set_files(pptx_path): the path is supplied without any
  -- existence check by the script; Playwright itself raises when the
  -- file is missing on disk
  let s := emit s (.setFiles (pptx_path script))
  if !env.pptxExists then (.error .setFilesError, s) else
  -- expect(slide_container).to_be_visible(timeout=10000)
  let s := emit s (.waitVisible "slide-1" 10000)
  if !env.visibleWithin 10000 then (.error .renderTimeoutError, s) else
  -- page.wait_for_timeout(1000)
  let s := emit s (.settleDelay 1000)
  -- screenshot_path = join(base_dir, "jules-scratch", "verification", "verification.png")
  let s := emit s (.resolvePath "screenshot" (screenshot_path script))
  -- page.screenshot(path=screenshot_path): full_page defaults to False
  let s := emit s (.screenshot (screenshot_path script) false)
  if !env.captureOk then (.error .captureError, s) else
  let s := { s with shots := s.shots ++ [screenshot_path script] }
  -- browser.close()
  let s := { emit s .closeBrowser with sessionOpen := false, closeCount := s.closeCount + 1 }
  -- print("Screenshot saved to " + screenshot_path)
  let msg := successMessage (screenshot_path script)
  let s := { emit s (.consolePrint msg) with printed := s.printed ++ [msg] }
  (.ok (), s)

/-- run_verification: the body wrapped in the sync_playwright context
manager.  On every exit, normal or exceptional, the context manager
stops the Playwright driver, which closes the browser when it is still
open; a browser already closed by browser.close() is not closed again. -/
def run_verification (script : FsPath) (env : Env) : Except RunError Unit × St :=
  let r := runBody script env St.init
  let s := emit r.2 .stopPlaywright
  let s := if s.sessionOpen then
    { s with sessionOpen := false, closeCount := s.closeCount + 1 } else s
  (r.1, s)

/-- The full event trace of a successful run. -/
def successTrace (script : FsPath) : List Event :=
  [.launch,
   .resolvePath "index" (index_path script),
   .navigate (index_path script),
   .resolvePath "pptx" (pptx_path script),
   .clickTrigger "pptx-file",
   .setFiles (pptx_path script),
   .waitVisible "slide-1" 10000,
   .settleDelay 1000,
   .resolvePath "screenshot" (screenshot_path script),
   .screenshot (screenshot_path script) false,
   .closeBrowser,
   .consolePrint (successMessage (screenshot_path script)),
   .stopPlaywright]

/-- The final state of a successful run. -/
def successSt (script : FsPath) : St :=
  ⟨successTrace script, false, 1, [screenshot_path script],
   [successMessage (screenshot_path script)]⟩

/-- On fully cooperative oracles the run succeeds with the expected
final state. -/
lemma run_ok (script : FsPath) (env : Env)
    (hl : env.launchOk = true) (hn : env.navOk = true)
    (ht : env.triggerPresent = true) (hp : env.pptxExists = true)
    (hv : env.visibleWithin 10000 = true) (hc : env.captureOk = true) :
    run_verification script env = (.ok (), successSt script) := by
  rcases env with ⟨l, n, t, v, pe, c⟩
  simp only at hl hn ht hp hc
  subst hl hn ht hp hc
  simp [run_verification, runBody, emit, St.init, hv, successSt, successTrace]

/-- A successful run forces every oracle to have cooperated. -/
lemma run_ok_flags (script : FsPath) (env : Env)
    (h : (run_verification script env).1 = .ok ()) :
    env.launchOk = true ∧ env.navOk = true ∧ env.triggerPresent = true ∧
    env.pptxExists = true ∧ env.visibleWithin 10000 = true ∧
    env.captureOk = true := by
  rcases env with ⟨l, n, t, v, pe, c⟩
  cases hv : Env.visibleWithin ⟨l, n, t, v, pe, c⟩ 10000 <;>
    cases l <;> cases n <;> cases t <;> cases pe <;> cases c <;>
      simp_all [run_verification, runBody, emit, St.init]

/-- Claim C1: on every execution of run_verification, whatever the
oracles do, the run ends with the session closed; the session is never
closed twice, and whenever a session was opened at all (the launch
succeeded) it is closed exactly once. -/
theorem session_closed_exactly_once (script : FsPath) (env : Env) :
    (run_verification script env).2.sessionOpen = false ∧
    (run_verification script env).2.closeCount ≤ 1 ∧
    (env.launchOk = true → (run_verification script env).2.closeCount = 1) := by
  rcases env with ⟨l, n, t, v, pe, c⟩
  cases hv : Env.visibleWithin ⟨l, n, t, v, pe, c⟩ 10000 <;>
    cases l <;> cases n <;> cases t <;> cases pe <;> cases c <;>
      simp_all [run_verification, runBody, emit, St.init]

/-- Witness for C1 at a concrete run. -/
theorem session_closed_exactly_once_w :
    (run_verification ["", "repo", "jules-scratch", "verification", "verify_styles.py"]
      ⟨true, true, true, some 0, true, true⟩).2.closeCount = 1 :=
  (session_closed_exactly_once
    ["", "repo", "jules-scratch", "verification", "verify_styles.py"]
    ⟨true, true, true, some 0, true, true⟩).2.2 rfl

/-- Claim C4: when slide-1 does not become visible within the 10 s
timeout after a successful upload, the run fails with the render
timeout error and no screenshot file is written. -/
theorem render_timeout_no_shot (script : FsPath) (env : Env)
    (hl : env.launchOk = true) (hn : env.navOk = true)
    (ht : env.triggerPresent = true) (hp : env.pptxExists = true)
    (hv : env.visibleWithin 10000 = false) :
    (run_verification script env).1 = .error .renderTimeoutError ∧
    (run_verification script env).2.shots = [] := by
  rcases env with ⟨l, n, t, v, pe, c⟩
  simp only at hl hn ht hp
  subst hl hn ht hp
  simp [run_verification, runBody, emit, St.init, hv]

/-- Witness for C4 at a concrete run where slide-1 never becomes visible. -/
theorem render_timeout_no_shot_w :
    (run_verification ["", "repo", "jules-scratch", "verification", "verify_styles.py"]
      ⟨true, true, true, none, true, true⟩).1 = .error .renderTimeoutError ∧
    (run_verification ["", "repo", "jules-scratch", "verification", "verify_styles.py"]
      ⟨true, true, true, none, true, true⟩).2.shots = [] :=
  render_timeout_no_shot
    ["", "repo", "jules-scratch", "verification", "verify_styles.py"]
    ⟨true, true, true, none, true, true⟩ rfl rfl rfl rfl rfl

/-- Claim C5: when the upload trigger element pptx-file is absent from
the loaded page, the run fails with the upload error and no screenshot
file is written. -/
theorem upload_error_no_shot (script : FsPath) (env : Env)
    (hl : env.launchOk = true) (hn : env.navOk = true)
    (ht : env.triggerPresent = false) :
    (run_verification script env).1 = .error .uploadError ∧
    (run_verification script env).2.shots = [] := by
  rcases env with ⟨l, n, t, v, pe, c⟩
  simp only at hl hn ht
  subst hl hn ht
  simp [run_verification, runBody, emit, St.init]

/-- Witness for C5 at a concrete run with the trigger element absent. -/
theorem upload_error_no_shot_w :
    (run_verification ["", "repo", "jules-scratch", "verification", "verify_styles.py"]
      ⟨true, true, false, some 0, true, true⟩).1 = .error .uploadError ∧
    (run_verification ["", "repo", "jules-scratch", "verification", "verify_styles.py"]
      ⟨true, true, false, some 0, true, true⟩).2.shots = [] :=
  upload_error_no_shot
    ["", "repo", "jules-scratch", "verification", "verify_styles.py"]
    ⟨true, true, false, some 0, true, true⟩ rfl rfl rfl

/-- True exactly on screenshot-capture events. -/
def Event.isShot : Event → Bool
  | .screenshot _ _ => true
  | _ => false

/-- Counterexample to claim C2: on a concrete successful run from
script /repo/jules-scratch/verification/verify_styles.py, the sole
screenshot is written to /repo/jules-scratch/verification/verification.png,
not to the claimed root-relative /repo/verification/verification.png. -/
theorem screenshot_location_cx :
    (run_verification ["", "repo", "jules-scratch", "verification", "verify_styles.py"]
      ⟨true, true, true, some 0, true, true⟩).1 = .ok () ∧
    (run_verification ["", "repo", "jules-scratch", "verification", "verify_styles.py"]
      ⟨true, true, true, some 0, true, true⟩).2.shots =
      [["", "repo", "jules-scratch", "verification", "verification.png"]] ∧
    (run_verification ["", "repo", "jules-scratch", "verification", "verify_styles.py"]
      ⟨true, true, true, some 0, true, true⟩).2.shots ≠
      [["", "repo", "verification", "verification.png"]] :=
  ⟨rfl, rfl, by decide⟩

/-- Claim C2 amended: every successful run produces exactly one
screenshot file, at root/jules-scratch/verification/verification.png
where root is derived from the script location. -/
theorem screenshot_location_amended (script : FsPath) (env : Env)
    (h : (run_verification script env).1 = .ok ()) :
    (run_verification script env).2.shots = [screenshot_path script] := by
  obtain ⟨hl, hn, ht, hp, hv, hc⟩ := run_ok_flags script env h
  rw [run_ok script env hl hn ht hp hv hc]
  simp [successSt]

/-- Witness for the amended C2 at a concrete successful run. -/
theorem screenshot_location_amended_w :
    (run_verification ["", "repo", "jules-scratch", "verification", "verify_styles.py"]
      ⟨true, true, true, some 0, true, true⟩).2.shots =
      [screenshot_path ["", "repo", "jules-scratch", "verification", "verify_styles.py"]] :=
  screenshot_location_amended
    ["", "repo", "jules-scratch", "verification", "verify_styles.py"]
    ⟨true, true, true, some 0, true, true⟩ rfl

/-- Counterexample to claim C3: on a concrete run whose computed root
does not contain a loadable entry point (navigation fails), the run
fails with a navigation error, not a dedicated path-resolution error,
and the very first recorded action is the browser launch, so browser
work proceeded before any path was even computed. -/
theorem path_resolution_cx :
    (run_verification ["", "repo", "jules-scratch", "verification", "verify_styles.py"]
      ⟨true, false, true, some 0, true, true⟩).1 = .error .navigationError ∧
    (run_verification ["", "repo", "jules-scratch", "verification", "verify_styles.py"]
      ⟨true, false, true, some 0, true, true⟩).2.events.head? = some .launch :=
  ⟨rfl, rfl⟩

/-- Claim C3 amended: the root is derived by applying dirname three
times to the absolute script path; no existence check on the entry
point is performed and no dedicated path-resolution failure exists: a
root without a loadable entry point surfaces as a navigation error
raised by page.goto, after the browser has already been launched, and
no screenshot is written. -/
theorem path_resolution_amended (script : FsPath) (env : Env)
    (hl : env.launchOk = true) (hn : env.navOk = false) :
    (run_verification script env).1 = .error .navigationError ∧
    (run_verification script env).2.events =
      [.launch,
       .resolvePath "index" (joinPath (dirname (dirname (dirname script))) ["index.html"]),
       .navigate (joinPath (dirname (dirname (dirname script))) ["index.html"]),
       .stopPlaywright] ∧
    (run_verification script env).2.shots = [] := by
  rcases env with ⟨l, n, t, v, pe, c⟩
  simp only at hl hn
  subst hl hn
  simp [run_verification, runBody, emit, St.init, index_path, base_dir, joinPath]

/-- Witness for the amended C3 at a concrete run with a failing navigation. -/
theorem path_resolution_amended_w :
    (run_verification ["", "repo", "jules-scratch", "verification", "verify_styles.py"]
      ⟨true, false, true, some 0, true, true⟩).1 = .error .navigationError ∧
    (run_verification ["", "repo", "jules-scratch", "verification", "verify_styles.py"]
      ⟨true, false, true, some 0, true, true⟩).2.events =
      [.launch,
       .resolvePath "index" (joinPath (dirname (dirname (dirname
         ["", "repo", "jules-scratch", "verification", "verify_styles.py"]))) ["index.html"]),
       .navigate (joinPath (dirname (dirname (dirname
         ["", "repo", "jules-scratch", "verification", "verify_styles.py"]))) ["index.html"]),
       .stopPlaywright] ∧
    (run_verification ["", "repo", "jules-scratch", "verification", "verify_styles.py"]
      ⟨true, false, true, some 0, true, true⟩).2.shots = [] :=
  path_resolution_amended
    ["", "repo", "jules-scratch", "verification", "verify_styles.py"]
    ⟨true, false, true, some 0, true, true⟩ rfl rfl

/-- Counterexample to claim C6: on a concrete successful run the one
screenshot captured carries fullPage = false (page.screenshot is called
without full_page=True, whose Playwright default is False), so the
capture is viewport-only, not full-page. -/
theorem full_page_cx :
    (run_verification ["", "repo", "jules-scratch", "verification", "verify_styles.py"]
      ⟨true, true, true, some 0, true, true⟩).1 = .ok () ∧
    ((run_verification ["", "repo", "jules-scratch", "verification", "verify_styles.py"]
      ⟨true, true, true, some 0, true, true⟩).2.events.filter Event.isShot) =
      [.screenshot ["", "repo", "jules-scratch", "verification", "verification.png"] false] :=
  ⟨rfl, rfl⟩

/-- Claim C6 amended: in every successful run the screenshot captured
to the resolved output path is taken with the fullPage option unset
(Playwright default False), capturing only the viewport. -/
theorem viewport_screenshot_amended (script : FsPath) (env : Env)
    (h : (run_verification script env).1 = .ok ()) :
    (run_verification script env).2.events.filter Event.isShot =
      [.screenshot (screenshot_path script) false] := by
  obtain ⟨hl, hn, ht, hp, hv, hc⟩ := run_ok_flags script env h
  rw [run_ok script env hl hn ht hp hv hc]
  simp [successSt, successTrace, Event.isShot, List.filter]

/-- Witness for the amended C6 at a concrete successful run. -/
theorem viewport_screenshot_amended_w :
    (run_verification ["", "repo", "jules-scratch", "verification", "verify_styles.py"]
      ⟨true, true, true, some 0, true, true⟩).2.events.filter Event.isShot =
      [.screenshot (screenshot_path
        ["", "repo", "jules-scratch", "verification", "verify_styles.py"]) false] :=
  viewport_screenshot_amended
    ["", "repo", "jules-scratch", "verification", "verify_styles.py"]
    ⟨true, true, true, some 0, true, true⟩ rfl

/-- True exactly on path-computation events. -/
def Event.isResolve : Event → Bool
  | .resolvePath _ _ => true
  | _ => false

/-- True exactly on the five blocking browser phases plus the settle
delay and the session release. -/
def Event.isPhase : Event → Bool
  | .launch => true
  | .navigate _ => true
  | .clickTrigger _ => true
  | .setFiles _ => true
  | .waitVisible _ _ => true
  | .settleDelay _ => true
  | .screenshot _ _ => true
  | .closeBrowser => true
  | _ => false

/-- True exactly on the session-close and console-print events. -/
def Event.isCloseOrPrint : Event → Bool
  | .closeBrowser => true
  | .consolePrint _ => true
  | _ => false

/-- Counterexample to claim C7: on a concrete successful run the very
first action is the browser launch, before any path is computed, and
the output path is computed at trace position 8, after the
wait-for-render phase at position 6 — the three paths are not all
computed before the browser phases begin. -/
theorem paths_precomputed_cx :
    (run_verification ["", "repo", "jules-scratch", "verification", "verify_styles.py"]
      ⟨true, true, true, some 0, true, true⟩).1 = .ok () ∧
    (run_verification ["", "repo", "jules-scratch", "verification", "verify_styles.py"]
      ⟨true, true, true, some 0, true, true⟩).2.events.head? = some .launch ∧
    (run_verification ["", "repo", "jules-scratch", "verification", "verify_styles.py"]
      ⟨true, true, true, some 0, true, true⟩).2.events.get? 6 =
      some (.waitVisible "slide-1" 10000) ∧
    (run_verification ["", "repo", "jules-scratch", "verification", "verify_styles.py"]
      ⟨true, true, true, some 0, true, true⟩).2.events.get? 8 =
      some (.resolvePath "screenshot"
        ["", "repo", "jules-scratch", "verification", "verification.png"]) :=
  ⟨rfl, rfl, rfl, rfl⟩

/-- Claim C7 amended: each of the three paths is computed exactly once
per successful run and never modified afterwards, but not before the
browser phases: the entry-point path is computed after the launch, the
input path after navigation, and the output path only after the render
wait and settle delay, each just before its first use. -/
theorem paths_resolved_once_amended (script : FsPath) (env : Env)
    (h : (run_verification script env).1 = .ok ()) :
    (run_verification script env).2.events.filter Event.isResolve =
      [.resolvePath "index" (index_path script),
       .resolvePath "pptx" (pptx_path script),
       .resolvePath "screenshot" (screenshot_path script)] ∧
    (run_verification script env).2.events = successTrace script := by
  obtain ⟨hl, hn, ht, hp, hv, hc⟩ := run_ok_flags script env h
  rw [run_ok script env hl hn ht hp hv hc]
  simp [successSt, successTrace, Event.isResolve, List.filter]

/-- Witness for the amended C7 at a concrete successful run. -/
theorem paths_resolved_once_amended_w :
    (run_verification ["", "repo", "jules-scratch", "verification", "verify_styles.py"]
      ⟨true, true, true, some 0, true, true⟩).2.events =
      successTrace ["", "repo", "jules-scratch", "verification", "verify_styles.py"] :=
  (paths_resolved_once_amended
    ["", "repo", "jules-scratch", "verification", "verify_styles.py"]
    ⟨true, true, true, some 0, true, true⟩ rfl).2

/-- Claim C8: every successful run executes the phases in the strict
order launch, navigate, upload (click then supply the file), wait for
render, settle delay of 1000 ms, capture, session release, with the
settle delay between the visibility wait and the capture. -/
theorem phase_order (script : FsPath) (env : Env)
    (h : (run_verification script env).1 = .ok ()) :
    (run_verification script env).2.events.filter Event.isPhase =
      [.launch,
       .navigate (index_path script),
       .clickTrigger "pptx-file",
       .setFiles (pptx_path script),
       .waitVisible "slide-1" 10000,
       .settleDelay 1000,
       .screenshot (screenshot_path script) false,
       .closeBrowser] := by
  obtain ⟨hl, hn, ht, hp, hv, hc⟩ := run_ok_flags script env h
  rw [run_ok script env hl hn ht hp hv hc]
  simp [successSt, successTrace, Event.isPhase, List.filter]

/-- Witness for C8 at a concrete successful run. -/
theorem phase_order_w :
    (run_verification ["", "repo", "jules-scratch", "verification", "verify_styles.py"]
      ⟨true, true, true, some 0, true, true⟩).2.events.filter Event.isPhase =
      [.launch,
       .navigate (index_path ["", "repo", "jules-scratch", "verification", "verify_styles.py"]),
       .clickTrigger "pptx-file",
       .setFiles (pptx_path ["", "repo", "jules-scratch", "verification", "verify_styles.py"]),
       .waitVisible "slide-1" 10000,
       .settleDelay 1000,
       .screenshot (screenshot_path
         ["", "repo", "jules-scratch", "verification", "verify_styles.py"]) false,
       .closeBrowser] :=
  phase_order ["", "repo", "jules-scratch", "verification", "verify_styles.py"]
    ⟨true, true, true, some 0, true, true⟩ rfl

/-- Claim C9: the run performs no existence check of its own on the
input file: root/jules-scratch/test.pptx is computed and supplied to
the file chooser unconditionally, and when the file is missing the run
still proceeds through navigation and the trigger click, failing only
at the set_files call inside the upload phase (a library error), never
with an early dedicated path-resolution failure. -/
theorem no_input_existence_check (script : FsPath) (env : Env)
    (hl : env.launchOk = true) (hn : env.navOk = true)
    (ht : env.triggerPresent = true) (hp : env.pptxExists = false) :
    (run_verification script env).1 = .error .setFilesError ∧
    (run_verification script env).2.events =
      [.launch,
       .resolvePath "index" (index_path script),
       .navigate (index_path script),
       .resolvePath "pptx" (pptx_path script),
       .clickTrigger "pptx-file",
       .setFiles (pptx_path script),
       .stopPlaywright] ∧
    (run_verification script env).2.shots = [] := by
  rcases env with ⟨l, n, t, v, pe, c⟩
  simp only at hl hn ht hp
  subst hl hn ht hp
  simp [run_verification, runBody, emit, St.init]

/-- Witness for C9 at a concrete run with the input file missing. -/
theorem no_input_existence_check_w :
    (run_verification ["", "repo", "jules-scratch", "verification", "verify_styles.py"]
      ⟨true, true, true, some 0, false, true⟩).1 = .error .setFilesError ∧
    (run_verification ["", "repo", "jules-scratch", "verification", "verify_styles.py"]
      ⟨true, true, true, some 0, false, true⟩).2.events =
      [.launch,
       .resolvePath "index" (index_path
         ["", "repo", "jules-scratch", "verification", "verify_styles.py"]),
       .navigate (index_path
         ["", "repo", "jules-scratch", "verification", "verify_styles.py"]),
       .resolvePath "pptx" (pptx_path
         ["", "repo", "jules-scratch", "verification", "verify_styles.py"]),
       .clickTrigger "pptx-file",
       .setFiles (pptx_path
         ["", "repo", "jules-scratch", "verification", "verify_styles.py"]),
       .stopPlaywright] ∧
    (run_verification ["", "repo", "jules-scratch", "verification", "verify_styles.py"]
      ⟨true, true, true, some 0, false, true⟩).2.shots = [] :=
  no_input_existence_check
    ["", "repo", "jules-scratch", "verification", "verify_styles.py"]
    ⟨true, true, true, some 0, false, true⟩ rfl rfl rfl rfl

/-- Claim C10: on every successful run exactly one console line is
printed, it is the success message carrying the resolved screenshot
path, and it is printed only after the browser session is closed (the
close event precedes the print event, each occurring once); on every
failing run nothing is printed. -/
theorem success_print_after_close (script : FsPath) (env : Env) :
    ((run_verification script env).1 = .ok () →
      (run_verification script env).2.printed =
        [successMessage (screenshot_path script)] ∧
      successMessage (screenshot_path script) =
        "Screenshot saved to " ++ String.intercalate "/" (screenshot_path script) ∧
      (run_verification script env).2.events.filter Event.isCloseOrPrint =
        [.closeBrowser, .consolePrint (successMessage (screenshot_path script))]) ∧
    (∀ e : RunError, (run_verification script env).1 = .error e →
      (run_verification script env).2.printed = []) := by
  constructor
  · intro h
    obtain ⟨hl, hn, ht, hp, hv, hc⟩ := run_ok_flags script env h
    rw [run_ok script env hl hn ht hp hv hc]
    refine ⟨rfl, rfl, ?_⟩
    simp [successSt, successTrace, Event.isCloseOrPrint, List.filter]
  · intro e he
    rcases env with ⟨l, n, t, v, pe, c⟩
    cases hv : Env.visibleWithin ⟨l, n, t, v, pe, c⟩ 10000 <;>
      cases l <;> cases n <;> cases t <;> cases pe <;> cases c <;>
        simp_all [run_verification, runBody, emit, St.init]

/-- Witness for C10 at a concrete successful run. -/
theorem success_print_after_close_w :
    (run_verification ["", "repo", "jules-scratch", "verification", "verify_styles.py"]
      ⟨true, true, true, some 0, true, true⟩).2.printed =
      [successMessage (screenshot_path
        ["", "repo", "jules-scratch", "verification", "verify_styles.py"])] :=
  ((success_print_after_close
    ["", "repo", "jules-scratch", "verification", "verify_styles.py"]
    ⟨true, true, true, some 0, true, true⟩).1 rfl).1

end VerifyStyles
